import Mathlib

/-!
Verification of the AuditFlow-Pro cross-document reconciliation and
risk-scoring engine (backend/functions/validator and
backend/functions/risk_scorer), via a shallow embedding of the Python
source into Lean.

Conventions of the embedding:
* Python strings are Lean `String`; Python numeric values (floats) are
  modelled as `ℚ`, with explicit `Option ℚ` results where the source can
  raise `ValueError` on parsing.
* Python dictionaries with a fixed key set become structures; a
  `dict.get(key, default)` of an optional key becomes an `Option` field.
* Python's stable `sorted(..., key=k, reverse=True)` is modelled by
  `List.insertionSort` with the reflexive "key at least as large"
  relation, which is exactly the stable descending sort.
-/

namespace AuditFlow

/-- Lowercase a string character by character, modelling Python's
`str.lower()` on the ASCII data this system handles. -/
def strLower (s : String) : String :=
  String.mk (s.toList.map Char.toLower)

/-- Uppercase a string, modelling Python's `str.upper()` on ASCII data. -/
def strUpper (s : String) : String :=
  String.mk (s.toList.map Char.toUpper)

/-- Remove leading and trailing whitespace, modelling Python's `str.strip()`. -/
def pyStrip (s : String) : String :=
  String.mk (((s.toList.dropWhile Char.isWhitespace).reverse.dropWhile
    Char.isWhitespace).reverse)

/-- Auxiliary substring test on character lists. -/
def hasSubListAux (needle : List Char) : List Char → Bool
  | [] => needle.isEmpty
  | c :: cs => List.isPrefixOf needle (c :: cs) || hasSubListAux needle cs

/-- Model of Python's `sub in s` substring containment test. -/
def pyIn (sub s : String) : Bool :=
  hasSubListAux sub.toList s.toList

/-- Python's `sub in sub` is always true: a string contains itself. -/
theorem pyIn_self (s : String) : pyIn s s = true := by
  unfold pyIn
  cases h : s.toList with
  | nil => simp [hasSubListAux]
  | cons c cs =>
      unfold hasSubListAux
      apply Bool.or_eq_true_iff.mpr
      left
      exact List.isPrefixOf_iff_prefix.mpr List.prefix_rfl

/-! ## Risk scorer (backend/functions/risk_scorer/scorer.py) -/

/-- Shape of one inconsistency dictionary as consumed by
`calculate_inconsistency_score`: the scorer reads the keys `field`,
`severity` and `description` (via `.get` with defaults `""`, `"LOW"`,
`"Unknown inconsistency"`; we model the keys as present, which is how the
validator always produces them). -/
structure ScoreInc where
  field : String
  severity : String
  description : String
deriving DecidableEq, Repr

/-- Risk factor entry produced by the scorer.  The source emits a dict
whose identifying key is `field` for inconsistency/confidence factors and
`document_id` for document-quality factors; `label` stands for that
identifying value. -/
structure RiskFactor where
  factor_type : String
  label : String
  points_added : Nat
  description : String
deriving DecidableEq, Repr

/-- Point allocation of `calculate_inconsistency_score` for a single
inconsistency, written exactly as the source's if/elif chain over the
lowercased field (substring tests mirror Python's `in`). -/
def incPoints (inc : ScoreInc) : Nat :=
  let field := strLower inc.field
  if pyIn "name" field then 15
  else if pyIn "address" field then 20
  else if pyIn "income" field then (if inc.severity = "HIGH" then 25 else 15)
  else if field = "ssn" ∨ field = "date_of_birth" ∨ field = "document_number" then 30
  else 0

/-- Loop body of `calculate_inconsistency_score`: add the points and
record a factor when the points are positive. -/
def incStep (acc : Nat × List RiskFactor) (inc : ScoreInc) :
    Nat × List RiskFactor :=
  if incPoints inc > 0 then
    (acc.1 + incPoints inc,
     acc.2 ++ [{ factor_type := "INCONSISTENCY", label := strLower inc.field,
                 points_added := incPoints inc, description := inc.description }])
  else acc

/-- Embedding of `calculate_inconsistency_score`: accumulates points and
risk-factor entries over the inconsistency list; a factor is only
recorded when its points are positive. -/
def calculate_inconsistency_score (inconsistencies : List ScoreInc) :
    Nat × List RiskFactor :=
  inconsistencies.foldl incStep (0, [])

/-- Data held for one golden-record field as the scorer consumes it:
`data.get("confidence", 100.0)` means an absent confidence defaults to
100. -/
structure GoldenMeta where
  confidence : Option ℚ
deriving DecidableEq

/-- Document summary as the scorer consumes it: `doc.get("status")` and
`doc.get("requires_manual_review")` may be absent. -/
structure ScoreDoc where
  document_id : String
  status : Option String
  requires_manual_review : Option Bool
deriving DecidableEq

/-- Condition under which a golden-record field draws a low-confidence
penalty: `data.get("confidence", 100.0) < 80.0`. -/
def lowConfidence (g : GoldenMeta) : Bool :=
  decide (g.confidence.getD 100 < 80)

/-- Condition under which a document draws a quality penalty:
`doc.get("status") == "LOW_QUALITY" or doc.get("requires_manual_review") is True`. -/
def poorQuality (d : ScoreDoc) : Bool :=
  d.status == some "LOW_QUALITY" || d.requires_manual_review == some true

/-- First loop body of `calculate_extraction_quality_score`: 10 points
per golden-record field with confidence below 80. -/
def qualFieldStep (acc : Nat × List RiskFactor) (fd : String × GoldenMeta) :
    Nat × List RiskFactor :=
  if lowConfidence fd.2 then
    (acc.1 + 10,
     acc.2 ++ [{ factor_type := "LOW_CONFIDENCE", label := fd.1,
                 points_added := 10,
                 description := "Low extraction confidence for " ++ fd.1 ++ "." }])
  else acc

/-- Second loop body of `calculate_extraction_quality_score`: 5 points
per document flagged low quality or requiring manual review. -/
def qualDocStep (acc : Nat × List RiskFactor) (doc : ScoreDoc) :
    Nat × List RiskFactor :=
  if poorQuality doc then
    (acc.1 + 5,
     acc.2 ++ [{ factor_type := "POOR_DOCUMENT_QUALITY", label := doc.document_id,
                 points_added := 5,
                 description := "Document " ++ doc.document_id ++
                   " flagged as low quality or requires manual review." }])
  else acc

/-- Embedding of `calculate_extraction_quality_score`: 10 points per
golden-record field with confidence below 80, then 5 points per document
flagged low quality or requiring manual review. -/
def calculate_extraction_quality_score (golden_record : List (String × GoldenMeta))
    (documents : List ScoreDoc) : Nat × List RiskFactor :=
  documents.foldl qualDocStep (golden_record.foldl qualFieldStep (0, []))

/-- Embedding of `determine_risk_level` (Task 9.4). -/
def determine_risk_level (total_score : Nat) : String :=
  if total_score ≤ 24 then "LOW"
  else if total_score ≤ 49 then "MEDIUM"
  else if total_score ≤ 79 then "HIGH"
  else "CRITICAL"

/-- Structured risk assessment returned by `calculate_total_risk`. -/
structure RiskAssessment where
  risk_score : Nat
  raw_score : Nat
  risk_level : String
  is_high_risk : Bool
  risk_factors : List RiskFactor
deriving DecidableEq

/-- Embedding of `calculate_total_risk` (Tasks 9.4 and 9.5): sums the two
score components, caps at 100, bands the capped score, and flags
`is_high_risk` when the capped score exceeds 50. -/
def calculate_total_risk (inconsistencies : List ScoreInc)
    (golden_record : List (String × GoldenMeta)) (documents : List ScoreDoc) :
    RiskAssessment :=
  let inc := calculate_inconsistency_score inconsistencies
  let qual := calculate_extraction_quality_score golden_record documents
  let raw_score := inc.1 + qual.1
  let final_score := min raw_score 100
  { risk_score := final_score
    raw_score := raw_score
    risk_level := determine_risk_level final_score
    is_high_risk := decide (final_score > 50)
    risk_factors := inc.2 ++ qual.2 }

/-! ### Claim C1 -/

/-- C1: for every inconsistency list, golden record and document list, the
risk assessment satisfies `capped_score = min(raw_score, 100)` (hence
`capped_score ≤ 100`), the level bands are `[0,24] → LOW`,
`[25,49] → MEDIUM`, `[50,79] → HIGH`, `[80,100] → CRITICAL`, and
`is_high_risk` holds exactly when the capped score exceeds 50. -/
theorem risk_assessment_banding (L : List ScoreInc)
    (G : List (String × GoldenMeta)) (D : List ScoreDoc) :
    let r := calculate_total_risk L G D
    r.risk_score = min r.raw_score 100 ∧
    r.risk_score ≤ 100 ∧
    (r.risk_level = "LOW" ↔ r.risk_score ≤ 24) ∧
    (r.risk_level = "MEDIUM" ↔ 25 ≤ r.risk_score ∧ r.risk_score ≤ 49) ∧
    (r.risk_level = "HIGH" ↔ 50 ≤ r.risk_score ∧ r.risk_score ≤ 79) ∧
    (r.risk_level = "CRITICAL" ↔ 80 ≤ r.risk_score ∧ r.risk_score ≤ 100) ∧
    (r.is_high_risk = true ↔ 50 < r.risk_score) := by
  intro r
  have hcap : r.risk_score = min r.raw_score 100 := rfl
  have hle : r.risk_score ≤ 100 := by
    rw [hcap]; exact Nat.min_le_right _ _
  have hlevel : r.risk_level = determine_risk_level r.risk_score := rfl
  refine ⟨hcap, hle, ?_, ?_, ?_, ?_, ?_⟩
  · rw [hlevel]; unfold determine_risk_level
    split_ifs with h1 h2 h3
    · simp [h1]
    · constructor
      · intro h; exact absurd h (by decide)
      · omega
    · constructor
      · intro h; exact absurd h (by decide)
      · omega
    · constructor
      · intro h; exact absurd h (by decide)
      · omega
  · rw [hlevel]; unfold determine_risk_level
    split_ifs with h1 h2 h3
    · constructor
      · intro h; exact absurd h (by decide)
      · omega
    · constructor
      · intro _; omega
      · intro _; rfl
    · constructor
      · intro h; exact absurd h (by decide)
      · omega
    · constructor
      · intro h; exact absurd h (by decide)
      · omega
  · rw [hlevel]; unfold determine_risk_level
    split_ifs with h1 h2 h3
    · constructor
      · intro h; exact absurd h (by decide)
      · omega
    · constructor
      · intro h; exact absurd h (by decide)
      · omega
    · constructor
      · intro _; omega
      · intro _; rfl
    · constructor
      · intro h; exact absurd h (by decide)
      · omega
  · rw [hlevel]; unfold determine_risk_level
    split_ifs with h1 h2 h3
    · constructor
      · intro h; exact absurd h (by decide)
      · omega
    · constructor
      · intro h; exact absurd h (by decide)
      · omega
    · constructor
      · intro h; exact absurd h (by decide)
      · omega
    · constructor
      · intro _; exact ⟨by omega, hle⟩
      · intro _; rfl
  · constructor
    · intro h; exact of_decide_eq_true h
    · intro h; exact decide_eq_true h

/-- Witness for C1 at a concrete input: three identifier inconsistencies
give a raw score of 90, capped at 90, level CRITICAL, and high risk. -/
theorem risk_assessment_banding_witness :
    (calculate_total_risk
        [⟨"ssn", "CRITICAL", "d"⟩, ⟨"ssn", "CRITICAL", "d"⟩, ⟨"ssn", "CRITICAL", "d"⟩]
        [] []).risk_level = "CRITICAL" :=
  ((risk_assessment_banding
      [⟨"ssn", "CRITICAL", "d"⟩, ⟨"ssn", "CRITICAL", "d"⟩, ⟨"ssn", "CRITICAL", "d"⟩]
      [] []).2.2.2.2.2.1).mpr (by constructor <;> decide)

/-! ### Claim C4 -/

/-- Score component of one `incStep`: always adds exactly the points of
the inconsistency (the skipped branch adds zero). -/
theorem incStep_fst (acc : Nat × List RiskFactor) (inc : ScoreInc) :
    (incStep acc inc).1 = acc.1 + incPoints inc := by
  unfold incStep
  by_cases h : incPoints inc > 0
  · rw [if_pos h]
  · rw [if_neg h]; omega

/-- Helper: the score component of `calculate_inconsistency_score` is the
sum of the per-inconsistency points, for any starting accumulator. -/
theorem inconsistency_score_foldl (L : List ScoreInc)
    (acc : Nat × List RiskFactor) :
    (L.foldl incStep acc).1 = acc.1 + (L.map incPoints).sum := by
  induction L generalizing acc with
  | nil => simp
  | cons inc rest ih =>
      rw [List.foldl_cons, ih, incStep_fst]
      simp only [List.map_cons, List.sum_cons]
      omega

/-- C4: appending one further inconsistency never decreases the raw
score: `raw_score(L ++ [i]) ≥ raw_score(L)` for any golden record and
document list. -/
theorem raw_score_monotone (L : List ScoreInc) (i : ScoreInc)
    (G : List (String × GoldenMeta)) (D : List ScoreDoc) :
    (calculate_total_risk L G D).raw_score ≤
      (calculate_total_risk (L ++ [i]) G D).raw_score := by
  have h1 : (calculate_inconsistency_score L).1 = 0 + (L.map incPoints).sum :=
    inconsistency_score_foldl L (0, [])
  have h2 : (calculate_inconsistency_score (L ++ [i])).1 =
      0 + ((L ++ [i]).map incPoints).sum :=
    inconsistency_score_foldl (L ++ [i]) (0, [])
  show (calculate_inconsistency_score L).1 + _ ≤
    (calculate_inconsistency_score (L ++ [i])).1 + _
  rw [h1, h2]
  simp only [List.map_append, List.sum_append, List.map_cons, List.map_nil,
    List.sum_cons, List.sum_nil]
  omega

/-! ## Validator rules (backend/functions/validator/rules.py) -/

/-- Aggregated field candidate as the validator hands it to the rules:
a `value` and the `source` document id. -/
structure FieldCand where
  value : String
  source : String
deriving DecidableEq, Repr

/-- Inconsistency dictionary as produced by the rules in `rules.py`. -/
structure Inconsistency where
  field : String
  severity : String
  expected_value : String
  actual_value : String
  source_documents : List String
  description : String
deriving DecidableEq, Repr

/-- Generic shape of the appending loops in the rules: fold a list,
appending `g a` for every element satisfying `p`. -/
theorem foldl_append_filter {α β : Type} (p : α → Bool) (g : α → β)
    (l : List α) (init : List β) :
    l.foldl (fun acc a => if p a then acc ++ [g a] else acc) init =
      init ++ (l.filter p).map g := by
  induction l generalizing init with
  | nil => simp
  | cons a rest ih =>
      rw [List.foldl_cons]
      by_cases h : p a
      · rw [if_pos h, ih]
        simp [h]
      · rw [if_neg h, ih]
        simp [h]

/-- Embedding of `validate_ssn_dob` (Task 8.5): the first candidate is the
baseline; every subsequent candidate whose value differs from the
baseline's value yields one CRITICAL inconsistency. -/
def validate_ssn_dob : List FieldCand → String → List Inconsistency
  | [], _ => []
  | baseline :: rest, field_name =>
      rest.foldl
        (fun acc val =>
          if val.value != baseline.value then
            acc ++ [{ field := field_name, severity := "CRITICAL",
                      expected_value := baseline.value,
                      actual_value := val.value,
                      source_documents := [baseline.source, val.source],
                      description := "Critical " ++ strUpper field_name ++
                        " mismatch detected." }]
          else acc)
        []

/-! ### Claim C5 -/

/-- C5: for every non-empty identifier/date candidate list the
zero-tolerance rule emits exactly one CRITICAL inconsistency per
subsequent candidate whose value differs from the baseline (the first
candidate); in particular the values
`["123-45-6789", "123-45-6789", "987-65-4321"]` yield exactly one
CRITICAL inconsistency. -/
theorem zero_tolerance_baseline (baseline : FieldCand) (rest : List FieldCand)
    (field_name : String) :
    (validate_ssn_dob (baseline :: rest) field_name).length =
      rest.countP (fun v => v.value != baseline.value) ∧
    (validate_ssn_dob (baseline :: rest) field_name).all
      (fun i => i.severity == "CRITICAL" &&
        i.expected_value == baseline.value) = true ∧
    (validate_ssn_dob
        [⟨"123-45-6789", "doc-1"⟩, ⟨"123-45-6789", "doc-2"⟩,
         ⟨"987-65-4321", "doc-3"⟩] "ssn").length = 1 ∧
    (validate_ssn_dob
        [⟨"123-45-6789", "doc-1"⟩, ⟨"123-45-6789", "doc-2"⟩,
         ⟨"987-65-4321", "doc-3"⟩] "ssn").all
      (fun i => i.severity == "CRITICAL") = true := by
  have hfold : validate_ssn_dob (baseline :: rest) field_name =
      (rest.filter (fun v => v.value != baseline.value)).map
        (fun val => { field := field_name, severity := "CRITICAL",
                      expected_value := baseline.value,
                      actual_value := val.value,
                      source_documents := [baseline.source, val.source],
                      description := "Critical " ++ strUpper field_name ++
                        " mismatch detected." }) := by
    simp only [validate_ssn_dob]
    rw [foldl_append_filter]
    simp
  refine ⟨?_, ?_, by decide, by decide⟩
  · rw [hfold, List.length_map, List.countP_eq_length_filter]
  · rw [hfold]
    simp only [List.all_eq_true, List.mem_map, List.mem_filter]
    rintro i ⟨v, ⟨hv, hne⟩, rfl⟩
    simp

/-! ## Numeric parsing for the income rule

The income rule parses each candidate with
`float(str(value).replace(',', '').replace('$', ''))` inside a
`try`/`except ValueError`.  We model the string-to-number conversion as a
partial parse to `ℚ`: `parseFloat` accepts the plain decimal forms
(optional sign, digits, optional fractional part, surrounding
whitespace) that Python's `float` accepts on this system's currency
data, and returns `none` exactly where `float` raises `ValueError`. -/

/-- Numeric value of a digit list interpreted in base 10. -/
def natOfDigits (cs : List Char) : ℚ :=
  cs.foldl (fun acc c => acc * 10 + (c.toNat - 48 : ℕ)) 0

/-- Value of a fractional digit list (the part after the decimal point). -/
def fracOfDigits (cs : List Char) : ℚ :=
  cs.foldr (fun c acc => ((c.toNat - 48 : ℕ) + acc) / 10) 0

/-- Parse an unsigned decimal literal: digits with an optional single
decimal point, requiring at least one digit overall. -/
def parseUnsigned (cs : List Char) : Option ℚ :=
  let intPart := cs.takeWhile Char.isDigit
  let rest := cs.dropWhile Char.isDigit
  match rest with
  | [] => if intPart.isEmpty then none else some (natOfDigits intPart)
  | '.' :: frac =>
      if frac.all Char.isDigit && !(intPart.isEmpty && frac.isEmpty) then
        some (natOfDigits intPart + fracOfDigits frac)
      else none
  | _ => none

/-- Model of Python's `float(s)` on decimal strings: strip surrounding
whitespace, read an optional sign, then an unsigned decimal literal;
`none` models a raised `ValueError`. -/
def parseFloat (s : String) : Option ℚ :=
  let cs := ((s.toList.dropWhile Char.isWhitespace).reverse.dropWhile
    Char.isWhitespace).reverse
  match cs with
  | '-' :: rest => (parseUnsigned rest).map (fun q => -q)
  | '+' :: rest => parseUnsigned rest
  | _ => parseUnsigned cs

/-- Model of `str(value).replace(',', '').replace('$', '')`: remove every
comma and dollar sign. -/
def stripMoney (s : String) : String :=
  String.mk (s.toList.filter (fun c => c ≠ ',' ∧ c ≠ '$'))

/-- Combined parse applied to each wage / AGI candidate in
`validate_income`. -/
def parseMoney (s : String) : Option ℚ :=
  parseFloat (stripMoney s)

/-- Discrepancy percentage of the income rule:
`abs(total - agi) / max(total, 1) * 100`. -/
def discrepancy_pct (total_w2_income agi_value : ℚ) : ℚ :=
  |total_w2_income - agi_value| / max total_w2_income 1 * 100

/-- Single inconsistency emitted by the income rule. -/
def incomeInc (w2_wages : List FieldCand) (agi : FieldCand)
    (total_w2_income agi_value : ℚ) : Inconsistency :=
  { field := "income",
    severity := if discrepancy_pct total_w2_income agi_value > 10
      then "HIGH" else "MEDIUM",
    expected_value := toString total_w2_income,
    actual_value := toString agi_value,
    source_documents := w2_wages.map (·.source) ++ [agi.source],
    description := "Income discrepancy detected between W2s and Tax Form." }

/-- Embedding of `validate_income` (Task 8.4): sum the parsed W2 wage
values, compare with the parsed tax-form AGI, and emit one inconsistency
when the discrepancy percentage exceeds 5 (HIGH above 10, MEDIUM
otherwise).  A `ValueError` from any parse is caught by the source's
`try`/`except`, which returns the still-empty inconsistency list: that
is the wildcard branch of the match on the parses. -/
def validate_income (w2_wages : List FieldCand) (tax_agi : Option FieldCand) :
    List Inconsistency :=
  if w2_wages.isEmpty || tax_agi.isNone then []
  else
    match tax_agi with
    | none => []
    | some agi =>
        match w2_wages.mapM (fun w => parseMoney w.value), parseMoney agi.value with
        | some ws, some agi_value =>
            if discrepancy_pct ws.sum agi_value > 5 then
              [incomeInc w2_wages agi ws.sum agi_value]
            else []
        | _, _ => []


/-- Shape of `validate_income` on a present AGI and non-empty wage list:
the guard is passed and the result is the match on the two parses. -/
theorem validate_income_some (ws : List FieldCand) (agi : FieldCand)
    (hne : ws.isEmpty = false) :
    validate_income ws (some agi) =
      match ws.mapM (fun w => parseMoney w.value), parseMoney agi.value with
      | some qs, some q =>
          if discrepancy_pct qs.sum q > 5 then [incomeInc ws agi qs.sum q]
          else []
      | _, _ => [] := by
  simp only [validate_income, hne, Option.isNone_some, Bool.or_false,
    Bool.false_eq_true, if_false]

/-- Casting helper: the rational digit fold equals the natural digit
fold, coerced. -/
theorem natOfDigits_cast_aux (cs : List Char) (n : ℕ) :
    cs.foldl (fun acc c => acc * 10 + ((c.toNat - 48 : ℕ) : ℚ)) (n : ℚ) =
      ((cs.foldl (fun acc c => acc * 10 + (c.toNat - 48)) n : ℕ) : ℚ) := by
  induction cs generalizing n with
  | nil => rfl
  | cons c cs ih =>
      rw [List.foldl_cons, List.foldl_cons]
      have h : ((n : ℚ) * 10 + ((c.toNat - 48 : ℕ) : ℚ)) =
          ((n * 10 + (c.toNat - 48) : ℕ) : ℚ) := by push_cast; ring
      rw [h, ih]

/-- The value of a digit string is the corresponding natural number. -/
theorem natOfDigits_cast (cs : List Char) :
    natOfDigits cs =
      ((cs.foldl (fun acc c => acc * 10 + (c.toNat - 48)) 0 : ℕ) : ℚ) := by
  have h := natOfDigits_cast_aux cs 0
  simpa [natOfDigits] using h

/-- Evaluation helper for `parseMoney` on plain digit strings: if the
parse reaches `natOfDigits` (checked by `rfl`) and the natural fold
evaluates to `n` (checked by `rfl`), the parsed value is `n`. -/
theorem parseMoney_digits (s : String) (n : ℕ)
    (h1 : parseMoney s = some (natOfDigits s.toList))
    (h2 : (s.toList.foldl (fun acc c => acc * 10 + (c.toNat - 48)) 0 : ℕ) = n) :
    parseMoney s = some (n : ℚ) := by
  rw [h1, natOfDigits_cast, h2]

theorem parseMoney_50000 : parseMoney "50000" = some 50000 := by
  simpa using parseMoney_digits "50000" 50000 rfl rfl

theorem parseMoney_25000 : parseMoney "25000" = some 25000 := by
  simpa using parseMoney_digits "25000" 25000 rfl rfl

theorem parseMoney_90000 : parseMoney "90000" = some 90000 := by
  simpa using parseMoney_digits "90000" 90000 rfl rfl

theorem parseMoney_100 : parseMoney "100" = some 100 := by
  simpa using parseMoney_digits "100" 100 rfl rfl

theorem parseMoney_103 : parseMoney "103" = some 103 := by
  simpa using parseMoney_digits "103" 103 rfl rfl

/-- Core banding behaviour of the income rule (shared by the claim
theorems below): with all parses succeeding, the rule is governed by the
discrepancy percentage. -/
theorem income_band_core (ws : List FieldCand) (agi : FieldCand)
    (qs : List ℚ) (q : ℚ)
    (hw : ws.mapM (fun w => parseMoney w.value) = some qs)
    (hq : parseMoney agi.value = some q)
    (hne : ws.isEmpty = false) :
    (discrepancy_pct qs.sum q ≤ 5 → validate_income ws (some agi) = []) ∧
    (5 < discrepancy_pct qs.sum q → discrepancy_pct qs.sum q ≤ 10 →
      (validate_income ws (some agi)).map (fun i => (i.field, i.severity)) =
        [("income", "MEDIUM")]) ∧
    (10 < discrepancy_pct qs.sum q →
      (validate_income ws (some agi)).map (fun i => (i.field, i.severity)) =
        [("income", "HIGH")]) := by
  have hval : validate_income ws (some agi) =
      if discrepancy_pct qs.sum q > 5 then [incomeInc ws agi qs.sum q]
      else [] := by
    rw [validate_income_some ws agi hne, hw, hq]
  refine ⟨?_, ?_, ?_⟩
  · intro h5
    rw [hval, if_neg (by linarith)]
  · intro h5 h10
    rw [hval, if_pos h5]
    simp only [incomeInc, List.map_cons, List.map_nil]
    rw [if_neg (by linarith)]
  · intro h10
    rw [hval, if_pos (by linarith)]
    simp only [incomeInc, List.map_cons, List.map_nil]
    rw [if_pos h10]

/-- Discrepancy of the scenario wages 50000 + 25000 against 90000: 20
percent, above the HIGH threshold. -/
theorem scenario_pct_high :
    10 < discrepancy_pct ([(50000 : ℚ), 25000].sum) 90000 := by
  have hsum : ([(50000 : ℚ), 25000].sum) = 75000 := by norm_num
  rw [hsum]
  unfold discrepancy_pct
  rw [show |(75000 : ℚ) - 90000| = 15000 by
        rw [show (75000 : ℚ) - 90000 = -15000 by norm_num, abs_neg]
        exact abs_of_nonneg (by norm_num),
      max_eq_left (by norm_num)]
  norm_num

/-! ### Claim C8 -/

/-- C8: when every wage candidate and the reference value parse, the
income rule compares `discrepancy_pct = |total - reference| / max(total, 1) × 100`
and emits nothing at up to 5 percent, one MEDIUM income inconsistency
above 5 and up to 10 percent, and one HIGH income inconsistency above
10 percent; in particular wages `[50000, 25000]` against reference
`90000` (a 20 percent discrepancy) yield one HIGH income
inconsistency. -/
theorem income_discrepancy_bands (ws : List FieldCand) (agi : FieldCand)
    (qs : List ℚ) (q : ℚ)
    (hw : ws.mapM (fun w => parseMoney w.value) = some qs)
    (hq : parseMoney agi.value = some q)
    (hne : ws.isEmpty = false) :
    (discrepancy_pct qs.sum q ≤ 5 → validate_income ws (some agi) = []) ∧
    (5 < discrepancy_pct qs.sum q → discrepancy_pct qs.sum q ≤ 10 →
      (validate_income ws (some agi)).map (fun i => (i.field, i.severity)) =
        [("income", "MEDIUM")]) ∧
    (10 < discrepancy_pct qs.sum q →
      (validate_income ws (some agi)).map (fun i => (i.field, i.severity)) =
        [("income", "HIGH")]) ∧
    (validate_income [⟨"50000", "w2-a"⟩, ⟨"25000", "w2-b"⟩]
        (some ⟨"90000", "tax-1"⟩)).map (fun i => (i.field, i.severity)) =
      [("income", "HIGH")] := by
  obtain ⟨b1, b2, b3⟩ := income_band_core ws agi qs q hw hq hne
  refine ⟨b1, b2, b3, ?_⟩
  have hm : ([⟨"50000", "w2-a"⟩, ⟨"25000", "w2-b"⟩] : List FieldCand).mapM
      (fun w => parseMoney w.value) = some [(50000 : ℚ), 25000] := by
    simp [List.mapM, List.mapM.loop, parseMoney_50000, parseMoney_25000]
  exact (income_band_core [⟨"50000", "w2-a"⟩, ⟨"25000", "w2-b"⟩]
    ⟨"90000", "tax-1"⟩ [(50000 : ℚ), 25000] 90000 hm parseMoney_90000
    rfl).2.2 scenario_pct_high

/-- Witness for C8 at concrete inputs: a single wage of 100 against a
reference of 103 is a 3 percent discrepancy, within tolerance, so the
rule emits nothing. -/
theorem income_discrepancy_bands_witness :
    validate_income [⟨"100", "w2-a"⟩] (some ⟨"103", "tax-1"⟩) = [] := by
  have hm : ([⟨"100", "w2-a"⟩] : List FieldCand).mapM
      (fun w => parseMoney w.value) = some [(100 : ℚ)] := by
    simp [List.mapM, List.mapM.loop, parseMoney_100]
  refine (income_discrepancy_bands [⟨"100", "w2-a"⟩] ⟨"103", "tax-1"⟩
    [(100 : ℚ)] 103 hm parseMoney_103 rfl).1 ?_
  have hsum : ([(100 : ℚ)].sum) = 100 := by norm_num
  rw [hsum]
  unfold discrepancy_pct
  rw [show |(100 : ℚ) - 103| = 3 by
        rw [show (100 : ℚ) - 103 = -3 by norm_num, abs_neg]
        exact abs_of_nonneg (by norm_num),
      max_eq_left (by norm_num)]
  norm_num

/-! ### Claim C7 -/

/-- Counterexample to C7: with wage candidates `["N/A", "50000"]` and
reference `"90000"`, the parse failure on `"N/A"` makes the source's
`try`/`except` abandon the whole comparison and return no inconsistency,
whereas excluding only the affected candidate and still comparing the
remaining candidate (`50000` against `90000`, an 80 percent discrepancy)
yields one. -/
theorem income_parse_skip_counterexample :
    validate_income [⟨"N/A", "w2-a"⟩, ⟨"50000", "w2-b"⟩]
      (some ⟨"90000", "tax-1"⟩) = [] ∧
    parseMoney "N/A" = none ∧
    validate_income [⟨"50000", "w2-b"⟩] (some ⟨"90000", "tax-1"⟩) ≠ [] := by
  have hnone : parseMoney "N/A" = none := rfl
  refine ⟨?_, hnone, ?_⟩
  · have hm : ([⟨"N/A", "w2-a"⟩, ⟨"50000", "w2-b"⟩] : List FieldCand).mapM
        (fun w => parseMoney w.value) = none := by
      simp [List.mapM, List.mapM.loop, hnone]
    rw [validate_income_some [⟨"N/A", "w2-a"⟩, ⟨"50000", "w2-b"⟩]
      ⟨"90000", "tax-1"⟩ rfl, hm]
  · have hm : ([⟨"50000", "w2-b"⟩] : List FieldCand).mapM
        (fun w => parseMoney w.value) = some [(50000 : ℚ)] := by
      simp [List.mapM, List.mapM.loop, parseMoney_50000]
    have hpct : discrepancy_pct ([(50000 : ℚ)].sum) 90000 > 5 := by
      have hsum : ([(50000 : ℚ)].sum) = 50000 := by norm_num
      rw [hsum]
      unfold discrepancy_pct
      rw [show |(50000 : ℚ) - 90000| = 40000 by
            rw [show (50000 : ℚ) - 90000 = -40000 by norm_num, abs_neg]
            exact abs_of_nonneg (by norm_num),
          max_eq_left (by norm_num)]
      norm_num
    rw [validate_income_some [⟨"50000", "w2-b"⟩] ⟨"90000", "tax-1"⟩ rfl, hm,
      parseMoney_90000]
    simp only [if_pos hpct]
    simp

/-- C7 as amended: a numeric parse failure in any wage candidate (or in
the reference value) silently skips the entire income comparison — the
rule returns the empty inconsistency list, and no error propagates to
the caller. -/
theorem income_parse_failure_aborts (ws : List FieldCand) (agi : FieldCand)
    (h : ws.mapM (fun w => parseMoney w.value) = none ∨
      parseMoney agi.value = none) :
    validate_income ws (some agi) = [] := by
  by_cases hemp : ws.isEmpty
  · unfold validate_income
    rw [if_pos (by simp [hemp])]
  · have hs : ws.isEmpty = false := by
      cases hb : ws.isEmpty
      · rfl
      · exact absurd hb hemp
    rw [validate_income_some ws agi hs]
    rcases h with h | h
    · rw [h]
    · rw [h]
      cases hw2 : ws.mapM (fun w => parseMoney w.value) with
      | none => rfl
      | some qs => rfl

/-- Witness for C7 (amended) at a concrete input: the unparsable wage
`"abc"` makes the rule return no inconsistencies. -/
theorem income_parse_failure_aborts_witness :
    validate_income [⟨"abc", "w2-a"⟩] (some ⟨"100", "tax-1"⟩) = [] :=
  income_parse_failure_aborts [⟨"abc", "w2-a"⟩] ⟨"100", "tax-1"⟩
    (Or.inl (by simp [List.mapM, List.mapM.loop,
      show parseMoney "abc" = none from rfl]))

/-! ### Claim C10 -/

/-- C10: the income comparison emits at most one inconsistency per run,
and any emitted inconsistency has severity MEDIUM or HIGH. -/
theorem income_at_most_one (ws : List FieldCand) (tax_agi : Option FieldCand) :
    (validate_income ws tax_agi).length ≤ 1 ∧
    (validate_income ws tax_agi).all
      (fun i => i.severity == "MEDIUM" || i.severity == "HIGH") = true := by
  rcases tax_agi with _ | agi
  · simp [validate_income]
  · by_cases hemp : ws.isEmpty
    · unfold validate_income
      rw [if_pos (by simp [hemp])]
      simp
    · have hs : ws.isEmpty = false := by
        cases hb : ws.isEmpty
        · rfl
        · exact absurd hb hemp
      rw [validate_income_some ws agi hs]
      cases hmw : ws.mapM (fun w => parseMoney w.value) with
      | none => exact ⟨Nat.zero_le 1, rfl⟩
      | some qs =>
        cases hq : parseMoney agi.value with
        | none => exact ⟨Nat.zero_le 1, rfl⟩
        | some q =>
          by_cases h5 : discrepancy_pct qs.sum q > 5
          · simp only [if_pos h5]
            refine ⟨by simp, ?_⟩
            simp only [List.all_cons, List.all_nil, Bool.and_true]
            unfold incomeInc
            by_cases h10 : discrepancy_pct qs.sum q > 10
            · simp [if_pos h10]
            · simp [if_neg h10]
          · simp only [if_neg h5]
            simp

/-! ## Golden-record selection (rules.py, `select_best_value`)

The source sorts candidates with Python's stable
`sorted(candidates, key=lambda x: (x['reliability'], x['confidence']), reverse=True)`.
A stable descending sort is uniquely determined by the key comparison and
stability, and `List.insertionSort` with the relation "my key is at least
as large as yours" computes exactly that permutation: a new element is
inserted before the first element whose key is not larger, so elements
with equal keys keep their original relative order. -/

/-- Candidate dictionary collected by `generate_golden_record` in
`rules.py`: keys `value`, `source_document`, `confidence`, `reliability`,
`doc_type`. -/
structure Candidate where
  value : String
  source_document : String
  confidence : ℚ
  reliability : Int
  doc_type : String
deriving DecidableEq, Repr

/-- Comparison used for the stable descending sort: `a` may come before
`b` exactly when the key `(reliability, confidence)` of `a` is
lexicographically at least that of `b`. -/
def candGE (a b : Candidate) : Prop :=
  b.reliability < a.reliability ∨
    (b.reliability = a.reliability ∧ b.confidence ≤ a.confidence)

instance : DecidableRel candGE := fun a b =>
  inferInstanceAs (Decidable (b.reliability < a.reliability ∨
    (b.reliability = a.reliability ∧ b.confidence ≤ a.confidence)))

theorem candGE_refl (a : Candidate) : candGE a a :=
  Or.inr ⟨rfl, le_refl _⟩

instance : IsTotal Candidate candGE where
  total a b := by
    rcases lt_trichotomy a.reliability b.reliability with h | h | h
    · exact Or.inr (Or.inl h)
    · rcases le_total a.confidence b.confidence with hc | hc
      · exact Or.inr (Or.inr ⟨h, hc⟩)
      · exact Or.inl (Or.inr ⟨h.symm, hc⟩)
    · exact Or.inl (Or.inl h)

instance : IsTrans Candidate candGE where
  trans a b c hab hbc := by
    rcases hab with h1 | ⟨h1, h1c⟩ <;> rcases hbc with h2 | ⟨h2, h2c⟩
    · exact Or.inl (lt_trans h2 h1)
    · exact Or.inl (by omega)
    · exact Or.inl (by omega)
    · exact Or.inr ⟨by omega, le_trans h2c h1c⟩

/-- Golden-record field as returned by `select_best_value`. -/
structure GoldenField where
  value : String
  source_document : String
  confidence : ℚ
  alternative_values : List String
  verified_by : List String
deriving DecidableEq, Repr

/-- Loop body over the sorted tail of `select_best_value`: a candidate
with a different value contributes to `alternative_values`, one with the
same value contributes its source to `verified_by`. -/
def altStep (bv : String) (acc : List String × List String) (candidate : Candidate) :
    List String × List String :=
  if candidate.value != bv then (acc.1 ++ [candidate.value], acc.2)
  else (acc.1, acc.2 ++ [candidate.source_document])

/-- Embedding of `select_best_value` in `rules.py` (Task 8.7): stable
descending sort on `(reliability, confidence)`, then the head is the
golden value and the tail is split into alternatives and corroborating
sources. -/
def select_best_value (candidates : List Candidate) : Option GoldenField :=
  if candidates.isEmpty then none
  else
    match List.insertionSort candGE candidates with
    | [] => none
    | best :: rest =>
        let av := rest.foldl (altStep best.value) ([], [])
        some { value := best.value, source_document := best.source_document,
               confidence := best.confidence,
               alternative_values := av.1, verified_by := av.2 }

/-- The alternatives/verified accumulation is a pair of filtered
projections of the sorted tail. -/
theorem altStep_foldl (bv : String) (l : List Candidate)
    (acc : List String × List String) :
    l.foldl (altStep bv) acc =
      (acc.1 ++ (l.filter (fun c => c.value != bv)).map (fun c => c.value),
       acc.2 ++ (l.filter (fun c => c.value == bv)).map
         (fun c => c.source_document)) := by
  induction l generalizing acc with
  | nil => simp
  | cons c cs ih =>
      rw [List.foldl_cons]
      by_cases h : c.value = bv
      · rw [show altStep bv acc c = (acc.1, acc.2 ++ [c.source_document]) by
          simp [altStep, h]]
        rw [ih]
        simp [List.filter_cons, h]
      · rw [show altStep bv acc c = (acc.1 ++ [c.value], acc.2) by
          simp [altStep, h]]
        rw [ih]
        simp [List.filter_cons, h]

/-- Head of the stable sort: it is a candidate of the input list and its
key is at least every input candidate's key. -/
theorem sorted_head_max (l : List Candidate) (best : Candidate)
    (rest : List Candidate)
    (h : List.insertionSort candGE l = best :: rest) :
    best ∈ l ∧ ∀ y ∈ l, candGE best y := by
  have hperm := List.perm_insertionSort candGE l
  have hsorted := List.sorted_insertionSort candGE l
  rw [h] at hperm hsorted
  constructor
  · exact hperm.mem_iff.mp (List.mem_cons_self best rest)
  · intro y hy
    have hy2 : y ∈ best :: rest := hperm.mem_iff.mpr hy
    rcases List.mem_cons.mp hy2 with h1 | h1
    · exact h1 ▸ candGE_refl best
    · exact (List.sorted_cons.mp hsorted).1 y h1

/-! ### Claim C2 -/

/-- Counterexample to C2: two candidates that tie on both reliability and
confidence but carry different values.  The stable sort keeps input
order on full key ties, so permuting the candidate list changes the
selected golden value and source document: there is no canonical
tiebreaker. -/
theorem golden_selection_order_counterexample :
    ([⟨"B", "doc-2", 90, 1, "W2"⟩, ⟨"A", "doc-1", 90, 1, "W2"⟩] :
        List Candidate).Perm
      [⟨"A", "doc-1", 90, 1, "W2"⟩, ⟨"B", "doc-2", 90, 1, "W2"⟩] ∧
    (select_best_value [⟨"A", "doc-1", 90, 1, "W2"⟩, ⟨"B", "doc-2", 90, 1, "W2"⟩]).map
        (fun g => (g.value, g.source_document)) ≠
      (select_best_value [⟨"B", "doc-2", 90, 1, "W2"⟩, ⟨"A", "doc-1", 90, 1, "W2"⟩]).map
        (fun g => (g.value, g.source_document)) := by
  constructor
  · exact List.Perm.swap _ _ _
  · decide

/-- C2 as amended: golden-record selection is a pure function of the
candidate multiset — permuting the input list never changes the chosen
value, source document, or confidence — provided no two distinct
candidates tie on both reliability and confidence.  (On full key ties
the source keeps whichever tied candidate appears first; there is no
canonical tiebreaker.) -/
theorem golden_selection_order_free (l l2 : List Candidate) (hp : l.Perm l2)
    (hinj : ∀ x ∈ l, ∀ y ∈ l, x.reliability = y.reliability →
      x.confidence = y.confidence → x = y) :
    (select_best_value l).map (fun g => (g.value, g.source_document, g.confidence)) =
      (select_best_value l2).map
        (fun g => (g.value, g.source_document, g.confidence)) := by
  by_cases hl : l = []
  · subst hl
    rw [hp.symm.eq_nil]
  · have hl2 : l2 ≠ [] := by
      intro h2
      subst h2
      exact hl hp.eq_nil
    have he1 : l.isEmpty = false := by
      cases l with
      | nil => exact absurd rfl hl
      | cons a as => rfl
    have he2 : l2.isEmpty = false := by
      cases l2 with
      | nil => exact absurd rfl hl2
      | cons a as => rfl
    rcases hs1 : List.insertionSort candGE l with _ | ⟨b1, r1⟩
    · exact absurd (((List.perm_insertionSort candGE l).symm.trans
        (hs1 ▸ List.Perm.refl _)).eq_nil) hl
    rcases hs2 : List.insertionSort candGE l2 with _ | ⟨b2, r2⟩
    · exact absurd (((List.perm_insertionSort candGE l2).symm.trans
        (hs2 ▸ List.Perm.refl _)).eq_nil) hl2
    obtain ⟨hm1, hmax1⟩ := sorted_head_max l b1 r1 hs1
    obtain ⟨hm2, hmax2⟩ := sorted_head_max l2 b2 r2 hs2
    have hm2l : b2 ∈ l := hp.mem_iff.mpr hm2
    have h12 : candGE b1 b2 := hmax1 b2 hm2l
    have h21 : candGE b2 b1 := hmax2 b1 (hp.mem_iff.mp hm1)
    have hrel : b1.reliability = b2.reliability := by
      rcases h12 with h | ⟨h, _⟩ <;> rcases h21 with h2 | ⟨h2, _⟩ <;> omega
    have hconf : b1.confidence = b2.confidence := by
      rcases h12 with h | ⟨h, hc⟩
      · rcases h21 with h2 | ⟨h2, hc2⟩
        · exact absurd (lt_trans h h2) (lt_irrefl _)
        · rw [h2] at h
          exact absurd h (lt_irrefl _)
      · rcases h21 with h2 | ⟨h2, hc2⟩
        · rw [h] at h2
          exact absurd h2 (lt_irrefl _)
        · exact le_antisymm hc2 hc
    have hbb : b1 = b2 := hinj b1 hm1 b2 hm2l hrel hconf
    simp only [select_best_value, he1, he2, Bool.false_eq_true, if_false,
      hs1, hs2]
    rw [hbb]
    simp

/-- Witness for C2 (amended) at concrete inputs: two candidates with
distinct keys select the same golden value under both orders. -/
theorem golden_selection_order_free_witness :
    (select_best_value [⟨"A", "doc-1", 95, 3, "TAX_FORM"⟩,
        ⟨"B", "doc-2", 90, 2, "W2"⟩]).map
      (fun g => (g.value, g.source_document, g.confidence)) =
    (select_best_value [⟨"B", "doc-2", 90, 2, "W2"⟩,
        ⟨"A", "doc-1", 95, 3, "TAX_FORM"⟩]).map
      (fun g => (g.value, g.source_document, g.confidence)) :=
  golden_selection_order_free _ _ (List.Perm.swap _ _ _) (by decide)

/-! ### Claim C9 -/

/-- Counterexample to C9: three candidates whose two lower-ranked members
share the value `"B"`.  The source appends every differing value from the
sorted tail without deduplication, so `alternative_values` contains
`"B"` twice. -/
theorem golden_alternatives_dedup_counterexample :
    (select_best_value [⟨"A", "doc-1", 95, 3, "TAX_FORM"⟩,
        ⟨"B", "doc-2", 90, 2, "W2"⟩,
        ⟨"B", "doc-3", 80, 1, "BANK_STATEMENT"⟩]).map
      (fun g => g.alternative_values) = some ["B", "B"] ∧
    ¬ (["B", "B"] : List String).Nodup := by
  constructor
  · decide
  · decide

/-- C9 as amended: for every non-empty candidate list, the chosen golden
value never appears in `alternative_values` (every stored alternative
differs from it); the list is, however, not deduplicated. -/
theorem golden_alternatives_exclude_chosen (candidates : List Candidate)
    (g : GoldenField) (h : select_best_value candidates = some g) :
    g.value ∉ g.alternative_values := by
  unfold select_best_value at h
  by_cases he : candidates.isEmpty
  · rw [if_pos he] at h
    exact absurd h (by simp)
  · rw [if_neg he] at h
    rcases hs : List.insertionSort candGE candidates with _ | ⟨best, rest⟩
    · rw [hs] at h
      exact absurd h (by simp)
    · rw [hs] at h
      have hg := Option.some.inj h
      subst hg
      intro hmem
      simp only [altStep_foldl, List.nil_append] at hmem
      simp only [List.mem_map, List.mem_filter] at hmem
      obtain ⟨c, ⟨hc, hne⟩, hval⟩ := hmem
      rw [hval] at hne
      simp at hne

/-- Witness for C9 (amended) at a concrete input: the selected value
`"A"` is not among the alternatives `["B"]`. -/
theorem golden_alternatives_exclude_chosen_witness :
    (⟨"A", "doc-1", 95, ["B"], []⟩ : GoldenField).value ∉
      (⟨"A", "doc-1", 95, ["B"], []⟩ : GoldenField).alternative_values :=
  golden_alternatives_exclude_chosen
    [⟨"A", "doc-1", 95, 3, "TAX_FORM"⟩, ⟨"B", "doc-2", 90, 2, "W2"⟩]
    ⟨"A", "doc-1", 95, ["B"], []⟩ (by decide)

/-! ### Claim C3 -/

/-- Score component of one `qualFieldStep`. -/
theorem qualFieldStep_fst (acc : Nat × List RiskFactor) (fd : String × GoldenMeta) :
    (qualFieldStep acc fd).1 = acc.1 + (if lowConfidence fd.2 then 10 else 0) := by
  unfold qualFieldStep
  by_cases h : lowConfidence fd.2
  · rw [if_pos h, if_pos h]
  · rw [if_neg h, if_neg h]
    omega

/-- Score component of one `qualDocStep`. -/
theorem qualDocStep_fst (acc : Nat × List RiskFactor) (doc : ScoreDoc) :
    (qualDocStep acc doc).1 = acc.1 + (if poorQuality doc then 5 else 0) := by
  unfold qualDocStep
  by_cases h : poorQuality doc
  · rw [if_pos h, if_pos h]
  · rw [if_neg h, if_neg h]
    omega

/-- Field loop of the quality score counts low-confidence fields. -/
theorem qualField_foldl (G : List (String × GoldenMeta))
    (acc : Nat × List RiskFactor) :
    (G.foldl qualFieldStep acc).1 =
      acc.1 + 10 * G.countP (fun fd => lowConfidence fd.2) := by
  induction G generalizing acc with
  | nil => simp
  | cons fd G ih =>
      rw [List.foldl_cons, ih, qualFieldStep_fst, List.countP_cons]
      by_cases h : lowConfidence fd.2
      · simp only [h, if_pos]
        omega
      · have hb : lowConfidence fd.2 = false := by
          cases hx : lowConfidence fd.2
          · rfl
          · exact absurd hx h
        simp [hb]

/-- Document loop of the quality score counts flagged documents. -/
theorem qualDoc_foldl (D : List ScoreDoc) (acc : Nat × List RiskFactor) :
    (D.foldl qualDocStep acc).1 = acc.1 + 5 * D.countP poorQuality := by
  induction D generalizing acc with
  | nil => simp
  | cons doc D ih =>
      rw [List.foldl_cons, ih, qualDocStep_fst, List.countP_cons]
      by_cases h : poorQuality doc
      · simp only [h, if_pos]
        omega
      · have hb : poorQuality doc = false := by
          cases hx : poorQuality doc
          · rfl
          · exact absurd hx h
        simp [hb]

/-- The extraction quality score is 10 per low-confidence golden field
plus 5 per flagged document. -/
theorem extraction_quality_fst (G : List (String × GoldenMeta))
    (D : List ScoreDoc) :
    (calculate_extraction_quality_score G D).1 =
      10 * G.countP (fun fd => lowConfidence fd.2) +
        5 * D.countP poorQuality := by
  unfold calculate_extraction_quality_score
  rw [qualDoc_foldl, qualField_foldl]
  omega

/-- On the canonical category names, the source's substring-matching
point chain agrees with the exact point table of the specification. -/
theorem incPoints_eq_table (inc : ScoreInc)
    (h : strLower inc.field ∈
        (["name", "address", "income", "ssn", "date_of_birth",
          "document_number"] : List String) ∨
      (pyIn "name" (strLower inc.field) = false ∧
       pyIn "address" (strLower inc.field) = false ∧
       pyIn "income" (strLower inc.field) = false ∧
       strLower inc.field ∉
         (["ssn", "date_of_birth", "document_number"] : List String))) :
    incPoints inc =
      (if strLower inc.field = "name" then 15
       else if strLower inc.field = "address" then 20
       else if strLower inc.field = "income" then
         (if inc.severity = "HIGH" then 25 else 15)
       else if strLower inc.field = "ssn" ∨ strLower inc.field = "date_of_birth" ∨
           strLower inc.field = "document_number" then 30
       else 0) := by
  rcases h with hmem | ⟨h1, h2, h3, h4⟩
  · simp only [List.mem_cons, List.not_mem_nil, or_false] at hmem
    rcases hmem with h | h | h | h | h | h <;>
      (simp only [incPoints]; rw [h]; rfl)
  · have hn1 : strLower inc.field ≠ "name" := by
      intro he
      rw [he, pyIn_self] at h1
      exact absurd h1 (by decide)
    have hn2 : strLower inc.field ≠ "address" := by
      intro he
      rw [he, pyIn_self] at h2
      exact absurd h2 (by decide)
    have hn3 : strLower inc.field ≠ "income" := by
      intro he
      rw [he, pyIn_self] at h3
      exact absurd h3 (by decide)
    simp only [List.mem_cons, List.not_mem_nil, or_false, not_or] at h4
    obtain ⟨h4a, h4b, h4c⟩ := h4
    simp only [incPoints]
    simp [h1, h2, h3, hn1, hn2, hn3, h4a, h4b, h4c]

/-- C3: for every inconsistency list over the engine's field categories
(or unrecognized fields), golden record, and document list, the raw risk
score is the sum of the specification's point table — name 15, address
20, income 25 if HIGH else 15, identifier-class (ssn / date_of_birth /
document_number) 30, unrecognized 0 — plus 10 per golden-record field
with confidence below the 80 percent threshold and 5 per document
flagged low-quality or requiring manual review. -/
theorem risk_point_table (L : List ScoreInc) (G : List (String × GoldenMeta))
    (D : List ScoreDoc)
    (hf : ∀ inc ∈ L, strLower inc.field ∈
        (["name", "address", "income", "ssn", "date_of_birth",
          "document_number"] : List String) ∨
      (pyIn "name" (strLower inc.field) = false ∧
       pyIn "address" (strLower inc.field) = false ∧
       pyIn "income" (strLower inc.field) = false ∧
       strLower inc.field ∉
         (["ssn", "date_of_birth", "document_number"] : List String))) :
    (calculate_total_risk L G D).raw_score =
      (L.map (fun inc =>
        if strLower inc.field = "name" then 15
        else if strLower inc.field = "address" then 20
        else if strLower inc.field = "income" then
          (if inc.severity = "HIGH" then 25 else 15)
        else if strLower inc.field = "ssn" ∨ strLower inc.field = "date_of_birth" ∨
            strLower inc.field = "document_number" then 30
        else 0)).sum +
      (10 * G.countP (fun fd => decide (fd.2.confidence.getD 100 < 80)) +
       5 * D.countP (fun doc => doc.status == some "LOW_QUALITY" ||
           doc.requires_manual_review == some true)) := by
  have h1 : (calculate_total_risk L G D).raw_score =
      (calculate_inconsistency_score L).1 +
        (calculate_extraction_quality_score G D).1 := rfl
  have h2 : (calculate_inconsistency_score L).1 = 0 + (L.map incPoints).sum :=
    inconsistency_score_foldl L (0, [])
  rw [h1, h2, extraction_quality_fst]
  have h3 : L.map incPoints = L.map (fun inc =>
      if strLower inc.field = "name" then 15
      else if strLower inc.field = "address" then 20
      else if strLower inc.field = "income" then
        (if inc.severity = "HIGH" then 25 else 15)
      else if strLower inc.field = "ssn" ∨ strLower inc.field = "date_of_birth" ∨
          strLower inc.field = "document_number" then 30
      else 0) :=
    List.map_congr_left (fun inc hin => incPoints_eq_table inc (hf inc hin))
  rw [h3]
  have hG : G.countP (fun fd => lowConfidence fd.2) =
      G.countP (fun fd => decide (fd.2.confidence.getD 100 < 80)) := rfl
  have hD : D.countP poorQuality =
      D.countP (fun doc => doc.status == some "LOW_QUALITY" ||
        doc.requires_manual_review == some true) := rfl
  rw [hG, hD]
  omega

/-- Witness for C3 at a concrete input: one inconsistency of each
category plus one unrecognized, one low-confidence golden field and one
flagged document, giving 15+20+25+15+30+0+10+5 = 120. -/
theorem risk_point_table_witness :
    (calculate_total_risk
        [⟨"name", "HIGH", "d"⟩, ⟨"address", "HIGH", "d"⟩,
         ⟨"income", "HIGH", "d"⟩, ⟨"income", "LOW", "d"⟩,
         ⟨"ssn", "CRITICAL", "d"⟩, ⟨"other", "LOW", "d"⟩]
        [("name", ⟨some 50⟩), ("ssn", ⟨none⟩)]
        [⟨"doc-1", some "LOW_QUALITY", none⟩,
         ⟨"doc-2", none, some false⟩]).raw_score = 120 := by
  rw [risk_point_table _ _ _ (by decide)]
  decide

/-! ## Cross-document validator handler (validator/app.py) and the
remaining rules of rules.py

The handler's external effects are injected: `getDocument` stands for the
DynamoDB `DocumentRepository.get_document` lookup, `created_timestamp`
for `datetime.utcnow()`, and `oracle` for the Bedrock semantic-equivalence
call of `semantic_component_match` (`some answer` when the model call
returns, `none` when it raises and the `except` fallback applies).  The
`uuid` wrapper and response echo fields (`message`, counts, per-document
summary dicts) carry no decision logic; the response model keeps the
fields the validation outcome consists of. -/

/-- Extracted field as stored in `extracted_data`: the dict format
`{'value': ..., 'confidence': ...}` handled by the handler and by
`extract_field_value`. -/
structure ExtractedField where
  value : String
  confidence : ℚ
deriving DecidableEq, Repr

/-- Document metadata as loaded from the repository. -/
structure DocumentMetadata where
  document_id : String
  loan_application_id : String
  document_type : String
  processing_status : String
  extracted_data : List (String × ExtractedField)
deriving DecidableEq, Repr

/-- Python `extracted_data[key]` guarded by `key in extracted_data`. -/
def lookupField (d : List (String × ExtractedField)) (k : String) :
    Option ExtractedField :=
  (d.find? (fun p => p.1 == k)).map (fun p => p.2)

/-- Semantic-equivalence oracle capability: `some b` is a Bedrock answer,
`none` a raised exception. -/
def Oracle : Type := String → String → String → Option Bool

/-- Inner loop of the Levenshtein dynamic program: walk `s2` producing
`current_row` entries from `previous_row` (`pj = previous_row[j]`,
`pj1 = previous_row[j+1]`) and the last entry `curj = current_row[j]`. -/
def levInner (c1 : Char) : List Char → List Nat → Nat → List Nat
  | c2 :: s2rest, pj :: pj1 :: prest, curj =>
      let ins := pj1 + 1
      let del := curj + 1
      let sub := pj + (if c1 ≠ c2 then 1 else 0)
      let m := min ins (min del sub)
      m :: levInner c1 s2rest (pj1 :: prest) m
  | _, _, _ => []

/-- Outer loop of the Levenshtein dynamic program over `s1`. -/
def levOuter (s2 : List Char) : List Char → List Nat → Nat → List Nat
  | [], prev, _ => prev
  | c1 :: s1rest, prev, i =>
      levOuter s2 s1rest ((i + 1) :: levInner c1 s2 prev (i + 1)) (i + 1)

/-- Core of `levenshtein_distance` once `s1` is the longer string:
`previous_row` starts as `range(len(s2) + 1)` and the answer is the last
entry of the final row. -/
def levenshtein_core (l1 l2 : List Char) : Nat :=
  if l2.isEmpty then l1.length
  else (levOuter l2 l1 (List.range (l2.length + 1)) 0).getLastD 0

/-- Embedding of `levenshtein_distance`: swap so the first argument is
the longer string, then run the row dynamic program. -/
def levenshtein_distance (s1 s2 : String) : Nat :=
  if s1.toList.length < s2.toList.length then
    levenshtein_core s2.toList s1.toList
  else levenshtein_core s1.toList s2.toList

/-- One unordered pair check of `validate_names` (Task 8.2): normalize
(lowercase, strip), flag HIGH when the edit distance exceeds 2. -/
def checkNamePair (n1 n2 : FieldCand) : List Inconsistency :=
  let name1 := pyStrip (strLower n1.value)
  let name2 := pyStrip (strLower n2.value)
  let dist := levenshtein_distance name1 name2
  if dist > 2 then
    [{ field := "name", severity := "HIGH", expected_value := n1.value,
       actual_value := n2.value, source_documents := [n1.source, n2.source],
       description := "Name mismatch detected (Edit distance: " ++
         toString dist ++ ")" }]
  else []

/-- Embedding of `validate_names`: every unordered pair `i < j` in input
order. -/
def validate_names : List FieldCand → List Inconsistency
  | [] => []
  | n1 :: rest =>
      (rest.foldl (fun acc n2 => acc ++ checkNamePair n1 n2) []) ++
        validate_names rest

/-- Address components produced by `parse_address_components` (Task 8.3). -/
structure AddressComponents where
  street : Option String
  city : Option String
  state : Option String
  zip : Option String
  raw : String
deriving DecidableEq, Repr

/-- Embedding of `parse_address_components`: split on commas (street,
city, then state and ZIP from the whitespace-split third part). -/
def parse_address_components (address : String) : AddressComponents :=
  if address = "" then
    { street := none, city := none, state := none, zip := none, raw := address }
  else
    let parts := ((pyStrip address).splitOn ",").map pyStrip
    let street := parts.get? 0
    let city := parts.get? 1
    match parts.get? 2 with
    | none => { street, city, state := none, zip := none, raw := address }
    | some state_zip =>
        let szp := ((pyStrip state_zip).split Char.isWhitespace).filter
          (fun s => s ≠ "")
        { street, city, state := szp.get? 0,
          zip := if szp.length ≥ 2 then szp.getLast? else none,
          raw := address }

/-- Embedding of `semantic_component_match` (Tasks 8.3 and 8.6): empty
components compare literally; otherwise normalized equality short-cuts,
then the Bedrock oracle decides, and on oracle failure the `except`
branch falls back to normalized equality. -/
def semantic_component_match (oracle : Oracle)
    (component1 component2 component_type : String) : Bool :=
  if component1 = "" ∨ component2 = "" then component1 == component2
  else
    let c1n := pyStrip (strLower component1)
    let c2n := pyStrip (strLower component2)
    if c1n == c2n then true
    else
      match oracle component1 component2 component_type with
      | some answer => answer
      | none => c1n == c2n

/-- Python truthiness of an optional string component. -/
def optTruthy : Option String → Bool
  | none => false
  | some s => !(s == "")

/-- Python string formatting of an optional component (None prints as
`None`). -/
def optStr : Option String → String
  | none => "None"
  | some s => s

/-- One component comparison of `validate_addresses`: semantic match when
both components are truthy, literal inequality otherwise. -/
def compareComponent (oracle : Oracle) (name : String)
    (c1 c2 : Option String) (ctype : String) : List String :=
  if optTruthy c1 && optTruthy c2 then
    if ¬ semantic_component_match oracle (c1.getD "") (c2.getD "") ctype then
      [name ++ " ('" ++ optStr c1 ++ "' vs '" ++ optStr c2 ++ "')"]
    else []
  else if c1 ≠ c2 then
    [name ++ " ('" ++ optStr c1 ++ "' vs '" ++ optStr c2 ++ "')"]
  else []

/-- ZIP comparison of `validate_addresses`: literal normalized equality,
no oracle. -/
def compareZip (c1 c2 : Option String) : List String :=
  if optTruthy c1 && optTruthy c2 then
    if pyStrip (strLower (c1.getD "")) ≠ pyStrip (strLower (c2.getD "")) then
      ["ZIP ('" ++ optStr c1 ++ "' vs '" ++ optStr c2 ++ "')"]
    else []
  else if c1 ≠ c2 then
    ["ZIP ('" ++ optStr c1 ++ "' vs '" ++ optStr c2 ++ "')"]
  else []

/-- One unordered pair check of `validate_addresses`: any mismatched
component yields a single HIGH inconsistency naming all mismatches. -/
def checkAddressPair (oracle : Oracle) (a1 a2 : FieldCand) :
    List Inconsistency :=
  let components1 := parse_address_components a1.value
  let components2 := parse_address_components a2.value
  let mismatched_components :=
    compareComponent oracle "street" components1.street components2.street
      "street" ++
    compareComponent oracle "city" components1.city components2.city "city" ++
    compareComponent oracle "state" components1.state components2.state
      "state" ++
    compareZip components1.zip components2.zip
  if mismatched_components ≠ [] then
    [{ field := "address", severity := "HIGH", expected_value := a1.value,
       actual_value := a2.value, source_documents := [a1.source, a2.source],
       description := "Address mismatch detected in: " ++
         String.intercalate ", " mismatched_components }]
  else []

/-- Embedding of `validate_addresses` (pairwise, like the name rule). -/
def validate_addresses (oracle : Oracle) : List FieldCand → List Inconsistency
  | [] => []
  | a1 :: rest =>
      (rest.foldl (fun acc a2 => acc ++ checkAddressPair oracle a1 a2) []) ++
        validate_addresses oracle rest

/-! ### Golden record generation (rules.py, `generate_golden_record`) -/

/-- Reliability hierarchy `RELIABILITY_HIERARCHY.get(doc_type, 0)`. -/
def get_reliability (doc_type : String) : Int :=
  if doc_type = "DRIVERS_LICENSE" then 4
  else if doc_type = "ID_DOCUMENT" then 4
  else if doc_type = "TAX_FORM" then 3
  else if doc_type = "W2" then 2
  else if doc_type = "BANK_STATEMENT" then 1
  else 0

/-- Candidate dictionary appended by the collectors of
`generate_golden_record`. -/
def mkCandidate (doc : DocumentMetadata) (f : ExtractedField) : Candidate :=
  { value := f.value, source_document := doc.document_id,
    confidence := f.confidence,
    reliability := get_reliability doc.document_type,
    doc_type := doc.document_type }

/-- Guarded append of one candidate: `if value:` skips empty values. -/
def candFrom (doc : DocumentMetadata) : Option ExtractedField → List Candidate
  | none => []
  | some fld => if fld.value ≠ "" then [mkCandidate doc fld] else []

/-- Run one per-document field selector over all documents, skipping
documents with empty `extracted_data` (`if not extracted_data: continue`). -/
def collectCandidates (documents : List DocumentMetadata)
    (sel : DocumentMetadata → Option ExtractedField) : List Candidate :=
  documents.foldl
    (fun acc doc =>
      if doc.extracted_data.isEmpty then acc
      else acc ++ candFrom doc (sel doc))
    []

/-- Name field chain of `generate_golden_record` (per document type). -/
def goldenNameField (doc : DocumentMetadata) : Option ExtractedField :=
  if doc.document_type = "W2" ∧
      (lookupField doc.extracted_data "employee_name").isSome then
    lookupField doc.extracted_data "employee_name"
  else if doc.document_type = "BANK_STATEMENT" ∧
      (lookupField doc.extracted_data "account_holder_name").isSome then
    lookupField doc.extracted_data "account_holder_name"
  else if doc.document_type = "TAX_FORM" ∧
      (lookupField doc.extracted_data "taxpayer_name").isSome then
    lookupField doc.extracted_data "taxpayer_name"
  else if (doc.document_type = "DRIVERS_LICENSE" ∨
      doc.document_type = "ID_DOCUMENT") ∧
      (lookupField doc.extracted_data "full_name").isSome then
    lookupField doc.extracted_data "full_name"
  else none

/-- SSN field chain of `generate_golden_record`. -/
def goldenSsnField (doc : DocumentMetadata) : Option ExtractedField :=
  if doc.document_type = "W2" ∧
      (lookupField doc.extracted_data "employee_ssn").isSome then
    lookupField doc.extracted_data "employee_ssn"
  else if doc.document_type = "TAX_FORM" ∧
      (lookupField doc.extracted_data "taxpayer_ssn").isSome then
    lookupField doc.extracted_data "taxpayer_ssn"
  else none

/-- Address field chain of `generate_golden_record`. -/
def goldenAddressField (doc : DocumentMetadata) : Option ExtractedField :=
  if doc.document_type = "W2" ∧
      (lookupField doc.extracted_data "employee_address").isSome then
    lookupField doc.extracted_data "employee_address"
  else if doc.document_type = "BANK_STATEMENT" ∧
      (lookupField doc.extracted_data "account_holder_address").isSome then
    lookupField doc.extracted_data "account_holder_address"
  else if doc.document_type = "TAX_FORM" ∧
      (lookupField doc.extracted_data "address").isSome then
    lookupField doc.extracted_data "address"
  else if doc.document_type = "DRIVERS_LICENSE" ∧
      (lookupField doc.extracted_data "address").isSome then
    lookupField doc.extracted_data "address"
  else none

/-- Income selector: W2 wages or tax-form adjusted gross income. -/
def goldenIncomeField (doc : DocumentMetadata) : Option ExtractedField :=
  if doc.document_type = "W2" then lookupField doc.extracted_data "wages"
  else if doc.document_type = "TAX_FORM" then
    lookupField doc.extracted_data "adjusted_gross_income"
  else none

/-- Golden record output: application id, timestamp, and one GoldenField
per category that had candidates. -/
structure GoldenRecordOut where
  loan_application_id : String
  created_timestamp : String
  fields : List (String × GoldenField)
deriving DecidableEq, Repr

/-- Embedding of `generate_golden_record` in `rules.py` (Task 8.7):
collect candidates per category across all documents, then select the
best value per non-empty category. -/
def generate_golden_record (loan_application_id : String)
    (documents : List DocumentMetadata) (created_timestamp : String) :
    GoldenRecordOut :=
  let name_candidates := collectCandidates documents goldenNameField
  let dob_candidates := collectCandidates documents
    (fun doc => lookupField doc.extracted_data "date_of_birth")
  let ssn_candidates := collectCandidates documents goldenSsnField
  let address_candidates := collectCandidates documents goldenAddressField
  let employer_candidates := collectCandidates documents
    (fun doc => if doc.document_type = "W2" then
      lookupField doc.extracted_data "employer_name" else none)
  let employer_ein_candidates := collectCandidates documents
    (fun doc => if doc.document_type = "W2" then
      lookupField doc.extracted_data "employer_ein" else none)
  let annual_income_candidates := collectCandidates documents goldenIncomeField
  let bank_account_candidates := collectCandidates documents
    (fun doc => if doc.document_type = "BANK_STATEMENT" then
      lookupField doc.extracted_data "account_number" else none)
  let ending_balance_candidates := collectCandidates documents
    (fun doc => if doc.document_type = "BANK_STATEMENT" then
      lookupField doc.extracted_data "ending_balance" else none)
  let dl_number_candidates := collectCandidates documents
    (fun doc => if doc.document_type = "DRIVERS_LICENSE" then
      lookupField doc.extracted_data "license_number" else none)
  let dl_state_candidates := collectCandidates documents
    (fun doc => if doc.document_type = "DRIVERS_LICENSE" then
      lookupField doc.extracted_data "state" else none)
  { loan_application_id, created_timestamp,
    fields :=
      ([("name", name_candidates), ("date_of_birth", dob_candidates),
        ("ssn", ssn_candidates), ("address", address_candidates),
        ("employer", employer_candidates),
        ("employer_ein", employer_ein_candidates),
        ("annual_income", annual_income_candidates),
        ("bank_account", bank_account_candidates),
        ("ending_balance", ending_balance_candidates),
        ("drivers_license_number", dl_number_candidates),
        ("drivers_license_state", dl_state_candidates)]).filterMap
        (fun p => (select_best_value p.2).map (fun g => (p.1, g))) }

/-! ### Lambda handler core (validator/app.py, Task 8.1) -/

/-- App-side field candidate: `if value:` skips empty values. -/
def appFieldCand (doc : DocumentMetadata) : Option ExtractedField →
    List FieldCand
  | none => []
  | some fld =>
      if fld.value ≠ "" then [{ value := fld.value, source := doc.document_id }]
      else []

/-- Run one per-document selector over the loaded documents, in order. -/
def collectFields (documents : List DocumentMetadata)
    (sel : DocumentMetadata → Option ExtractedField) : List FieldCand :=
  documents.foldl (fun acc doc => acc ++ appFieldCand doc (sel doc)) []

/-- Name extraction chain of the handler (Task 8.2). -/
def appNameField (doc : DocumentMetadata) : Option ExtractedField :=
  if doc.document_type = "W2" ∧
      (lookupField doc.extracted_data "employee_name").isSome then
    lookupField doc.extracted_data "employee_name"
  else if doc.document_type = "BANK_STATEMENT" ∧
      (lookupField doc.extracted_data "account_holder_name").isSome then
    lookupField doc.extracted_data "account_holder_name"
  else if doc.document_type = "TAX_FORM" ∧
      (lookupField doc.extracted_data "taxpayer_name").isSome then
    lookupField doc.extracted_data "taxpayer_name"
  else if doc.document_type = "DRIVERS_LICENSE" ∧
      (lookupField doc.extracted_data "full_name").isSome then
    lookupField doc.extracted_data "full_name"
  else if doc.document_type = "ID_DOCUMENT" ∧
      (lookupField doc.extracted_data "full_name").isSome then
    lookupField doc.extracted_data "full_name"
  else none

/-- Address extraction chain of the handler (Task 8.3). -/
def appAddressField (doc : DocumentMetadata) : Option ExtractedField :=
  if doc.document_type = "W2" ∧
      (lookupField doc.extracted_data "employee_address").isSome then
    lookupField doc.extracted_data "employee_address"
  else if doc.document_type = "BANK_STATEMENT" ∧
      (lookupField doc.extracted_data "account_holder_address").isSome then
    lookupField doc.extracted_data "account_holder_address"
  else if doc.document_type = "TAX_FORM" ∧
      (lookupField doc.extracted_data "address").isSome then
    lookupField doc.extracted_data "address"
  else if doc.document_type = "DRIVERS_LICENSE" ∧
      (lookupField doc.extracted_data "address").isSome then
    lookupField doc.extracted_data "address"
  else none

/-- W2 wage extraction of the handler (Task 8.4). -/
def appWageField (doc : DocumentMetadata) : Option ExtractedField :=
  if doc.document_type = "W2" then lookupField doc.extracted_data "wages"
  else none

/-- First tax-form AGI candidate of the handler (Task 8.4): the loop
breaks on the first tax form providing a non-empty value. -/
def appAgiCand (doc : DocumentMetadata) : Option FieldCand :=
  if doc.document_type = "TAX_FORM" then
    match lookupField doc.extracted_data "adjusted_gross_income" with
    | none => none
    | some fld =>
        if fld.value ≠ "" then
          some { value := fld.value, source := doc.document_id }
        else none
  else none

/-- DOB extraction of the handler (Task 8.5): identification documents
only. -/
def appDobField (doc : DocumentMetadata) : Option ExtractedField :=
  if doc.document_type = "DRIVERS_LICENSE" ∨ doc.document_type = "ID_DOCUMENT" ∨
      doc.document_type = "TAX_FORM" then
    lookupField doc.extracted_data "date_of_birth"
  else none

/-- SSN extraction chain of the handler (Task 8.5). -/
def appSsnField (doc : DocumentMetadata) : Option ExtractedField :=
  if doc.document_type = "W2" ∧
      (lookupField doc.extracted_data "employee_ssn").isSome then
    lookupField doc.extracted_data "employee_ssn"
  else if doc.document_type = "TAX_FORM" ∧
      (lookupField doc.extracted_data "taxpayer_ssn").isSome then
    lookupField doc.extracted_data "taxpayer_ssn"
  else none

/-- Document loading filter of the handler: skip documents that are
missing, belong to another application, have not completed processing,
or have no extracted data. -/
def loadDocument (getDocument : String → Option DocumentMetadata)
    (laid : String) (doc_id : String) : Option DocumentMetadata :=
  match getDocument doc_id with
  | none => none
  | some m =>
      if m.loan_application_id ≠ laid then none
      else if m.processing_status ≠ "COMPLETED" then none
      else if m.extracted_data.isEmpty then none
      else some m

/-- Handler response: an OK payload (status 200) or an error payload
raised via `ValueError` and caught as a 400 `ValidationError` (or 500
for unexpected exceptions, which the pure core never produces). -/
inductive ValidatorResponse where
  | ok (statusCode : Nat) (loan_application_id : String)
      (documents : List DocumentMetadata)
      (inconsistencies : List Inconsistency)
      (golden_record : GoldenRecordOut) (validation_status : String)
  | error (statusCode : Nat) (errorType : String) (message : String)
deriving DecidableEq

/-- Embedding of `lambda_handler` in `validator/app.py`: validate input,
load documents, run the name / address / income / DOB / SSN rules, and
build the golden record. -/
def lambda_handler_core (oracle : Oracle)
    (getDocument : String → Option DocumentMetadata)
    (loan_application_id : Option String) (document_ids : List String)
    (created_timestamp : String) : ValidatorResponse :=
  if loan_application_id.getD "" = "" then
    .error 400 "ValidationError" "loan_application_id is required"
  else if document_ids.isEmpty then
    .error 400 "ValidationError" "document_ids list cannot be empty"
  else
    let laid := loan_application_id.getD ""
    let loaded_documents := document_ids.filterMap
      (loadDocument getDocument laid)
    if loaded_documents.isEmpty then
      .error 400 "ValidationError" "No valid documents available for validation"
    else
      let name_fields := collectFields loaded_documents appNameField
      let name_inconsistencies :=
        if name_fields.length ≥ 2 then validate_names name_fields else []
      let address_fields := collectFields loaded_documents appAddressField
      let address_inconsistencies :=
        if address_fields.length ≥ 2 then
          validate_addresses oracle address_fields
        else []
      let w2_wages := collectFields loaded_documents appWageField
      let tax_agi := loaded_documents.findSome? appAgiCand
      let income_inconsistencies :=
        if ¬ w2_wages.isEmpty ∧ tax_agi.isSome then
          validate_income w2_wages tax_agi
        else []
      let dob_fields := collectFields loaded_documents appDobField
      let dob_inconsistencies :=
        if dob_fields.length ≥ 2 then
          validate_ssn_dob dob_fields "date_of_birth"
        else []
      let ssn_fields := collectFields loaded_documents appSsnField
      let ssn_inconsistencies :=
        if ssn_fields.length ≥ 2 then validate_ssn_dob ssn_fields "ssn" else []
      let inconsistencies := name_inconsistencies ++ address_inconsistencies ++
        income_inconsistencies ++ dob_inconsistencies ++ ssn_inconsistencies
      let golden_record :=
        generate_golden_record laid loaded_documents created_timestamp
      .ok 200 laid loaded_documents inconsistencies golden_record
        "VALIDATION_COMPLETE_WITH_GOLDEN_RECORD"

/-! ### Claim C6 -/

/-- Field keys the validator and golden-record builder recognize. -/
def recognizedFieldKeys : List String :=
  ["employee_name", "account_holder_name", "taxpayer_name", "full_name",
   "date_of_birth", "employee_ssn", "taxpayer_ssn", "employee_address",
   "account_holder_address", "address", "employer_name", "employer_ein",
   "wages", "adjusted_gross_income", "account_number", "ending_balance",
   "license_number", "state"]

/-- A document none of whose extracted fields has a recognized key: it
contributes no candidate to any rule or golden-record category. -/
def noRecognizedKeys (m : DocumentMetadata) : Bool :=
  m.extracted_data.all (fun p => !(recognizedFieldKeys.contains p.1))

/-- A document id that loads successfully for the application (present,
owned by it, COMPLETED, non-empty extracted data) while contributing no
recognized field. -/
def docLoadsUnrecognized (getDocument : String → Option DocumentMetadata)
    (laid : String) (id : String) : Bool :=
  match getDocument id with
  | none => false
  | some m =>
      m.loan_application_id == laid && m.processing_status == "COMPLETED" &&
        !m.extracted_data.isEmpty && noRecognizedKeys m

/-- A recognized key is absent from a document without recognized keys. -/
theorem lookup_none_of_noRec (m : DocumentMetadata)
    (h : noRecognizedKeys m = true) (k : String)
    (hk : recognizedFieldKeys.contains k = true) :
    lookupField m.extracted_data k = none := by
  unfold lookupField
  have hfind : m.extracted_data.find? (fun p => p.1 == k) = none := by
    rw [List.find?_eq_none]
    intro p hp
    have hall := List.all_eq_true.mp h p hp
    simp only [Bool.not_eq_true'] at hall
    intro hbeq
    rw [eq_of_beq hbeq] at hall
    rw [hall] at hk
    exact Bool.noConfusion hk
  rw [hfind]
  rfl

theorem appNameField_none (m : DocumentMetadata)
    (h : noRecognizedKeys m = true) : appNameField m = none := by
  have h1 := lookup_none_of_noRec m h "employee_name" (by decide)
  have h2 := lookup_none_of_noRec m h "account_holder_name" (by decide)
  have h3 := lookup_none_of_noRec m h "taxpayer_name" (by decide)
  have h4 := lookup_none_of_noRec m h "full_name" (by decide)
  simp [appNameField, h1, h2, h3, h4]

theorem appAddressField_none (m : DocumentMetadata)
    (h : noRecognizedKeys m = true) : appAddressField m = none := by
  have h1 := lookup_none_of_noRec m h "employee_address" (by decide)
  have h2 := lookup_none_of_noRec m h "account_holder_address" (by decide)
  have h3 := lookup_none_of_noRec m h "address" (by decide)
  simp [appAddressField, h1, h2, h3]

theorem appWageField_none (m : DocumentMetadata)
    (h : noRecognizedKeys m = true) : appWageField m = none := by
  have h1 := lookup_none_of_noRec m h "wages" (by decide)
  simp [appWageField, h1]

theorem appAgiCand_none (m : DocumentMetadata)
    (h : noRecognizedKeys m = true) : appAgiCand m = none := by
  have h1 := lookup_none_of_noRec m h "adjusted_gross_income" (by decide)
  simp [appAgiCand, h1]

theorem appDobField_none (m : DocumentMetadata)
    (h : noRecognizedKeys m = true) : appDobField m = none := by
  have h1 := lookup_none_of_noRec m h "date_of_birth" (by decide)
  simp [appDobField, h1]

theorem appSsnField_none (m : DocumentMetadata)
    (h : noRecognizedKeys m = true) : appSsnField m = none := by
  have h1 := lookup_none_of_noRec m h "employee_ssn" (by decide)
  have h2 := lookup_none_of_noRec m h "taxpayer_ssn" (by decide)
  simp [appSsnField, h1, h2]

theorem goldenNameField_none (m : DocumentMetadata)
    (h : noRecognizedKeys m = true) : goldenNameField m = none := by
  have h1 := lookup_none_of_noRec m h "employee_name" (by decide)
  have h2 := lookup_none_of_noRec m h "account_holder_name" (by decide)
  have h3 := lookup_none_of_noRec m h "taxpayer_name" (by decide)
  have h4 := lookup_none_of_noRec m h "full_name" (by decide)
  simp [goldenNameField, h1, h2, h3, h4]

theorem goldenSsnField_none (m : DocumentMetadata)
    (h : noRecognizedKeys m = true) : goldenSsnField m = none := by
  have h1 := lookup_none_of_noRec m h "employee_ssn" (by decide)
  have h2 := lookup_none_of_noRec m h "taxpayer_ssn" (by decide)
  simp [goldenSsnField, h1, h2]

theorem goldenAddressField_none (m : DocumentMetadata)
    (h : noRecognizedKeys m = true) : goldenAddressField m = none := by
  have h1 := lookup_none_of_noRec m h "employee_address" (by decide)
  have h2 := lookup_none_of_noRec m h "account_holder_address" (by decide)
  have h3 := lookup_none_of_noRec m h "address" (by decide)
  simp [goldenAddressField, h1, h2, h3]

theorem goldenIncomeField_none (m : DocumentMetadata)
    (h : noRecognizedKeys m = true) : goldenIncomeField m = none := by
  have h1 := lookup_none_of_noRec m h "wages" (by decide)
  have h2 := lookup_none_of_noRec m h "adjusted_gross_income" (by decide)
  simp [goldenIncomeField, h1, h2]

/-- A type-guarded lookup of a recognized key yields nothing on a
document without recognized keys. -/
theorem typeGuard_lookup_none (m : DocumentMetadata) (t k : String)
    (h : noRecognizedKeys m = true)
    (hk : recognizedFieldKeys.contains k = true) :
    (if m.document_type = t then lookupField m.extracted_data k else none) =
      none := by
  by_cases ht : m.document_type = t
  · rw [if_pos ht]
    exact lookup_none_of_noRec m h k hk
  · rw [if_neg ht]

/-- Selectors that yield nothing collect no field candidates. -/
theorem collectFields_nil (docs : List DocumentMetadata)
    (sel : DocumentMetadata → Option ExtractedField)
    (h : ∀ doc ∈ docs, sel doc = none) : collectFields docs sel = [] := by
  induction docs with
  | nil => rfl
  | cons d ds ih =>
      have hstep : collectFields (d :: ds) sel = collectFields ds sel := by
        unfold collectFields
        simp only [List.foldl_cons]
        rw [h d (List.mem_cons_self d ds)]
        rfl
      rw [hstep, ih (fun x hx => h x (List.mem_cons_of_mem d hx))]

/-- Selectors that yield nothing collect no golden-record candidates. -/
theorem collectCandidates_nil (docs : List DocumentMetadata)
    (sel : DocumentMetadata → Option ExtractedField)
    (h : ∀ doc ∈ docs, sel doc = none) : collectCandidates docs sel = [] := by
  induction docs with
  | nil => rfl
  | cons d ds ih =>
      have hstep : collectCandidates (d :: ds) sel = collectCandidates ds sel := by
        unfold collectCandidates
        simp only [List.foldl_cons]
        rw [h d (List.mem_cons_self d ds)]
        simp [candFrom]
      rw [hstep, ih (fun x hx => h x (List.mem_cons_of_mem d hx))]

/-- A selector that yields nothing finds nothing. -/
theorem findSome?_nil (docs : List DocumentMetadata)
    (sel : DocumentMetadata → Option FieldCand)
    (h : ∀ doc ∈ docs, sel doc = none) : docs.findSome? sel = none := by
  induction docs with
  | nil => rfl
  | cons d ds ih =>
      rw [List.findSome?_cons, h d (List.mem_cons_self d ds)]
      exact ih (fun x hx => h x (List.mem_cons_of_mem d hx))

/-- With only unrecognized fields, the golden record has no fields. -/
theorem golden_record_empty (laid : String) (docs : List DocumentMetadata)
    (now : String) (h : ∀ doc ∈ docs, noRecognizedKeys doc = true) :
    generate_golden_record laid docs now =
      { loan_application_id := laid, created_timestamp := now,
        fields := [] } := by
  have e1 := collectCandidates_nil docs goldenNameField
    (fun d hd => goldenNameField_none d (h d hd))
  have e2 := collectCandidates_nil docs
    (fun doc => lookupField doc.extracted_data "date_of_birth")
    (fun d hd => lookup_none_of_noRec d (h d hd) "date_of_birth" (by decide))
  have e3 := collectCandidates_nil docs goldenSsnField
    (fun d hd => goldenSsnField_none d (h d hd))
  have e4 := collectCandidates_nil docs goldenAddressField
    (fun d hd => goldenAddressField_none d (h d hd))
  have e5 := collectCandidates_nil docs
    (fun doc => if doc.document_type = "W2" then
      lookupField doc.extracted_data "employer_name" else none)
    (fun d hd => typeGuard_lookup_none d "W2" "employer_name" (h d hd)
      (by decide))
  have e6 := collectCandidates_nil docs
    (fun doc => if doc.document_type = "W2" then
      lookupField doc.extracted_data "employer_ein" else none)
    (fun d hd => typeGuard_lookup_none d "W2" "employer_ein" (h d hd)
      (by decide))
  have e7 := collectCandidates_nil docs goldenIncomeField
    (fun d hd => goldenIncomeField_none d (h d hd))
  have e8 := collectCandidates_nil docs
    (fun doc => if doc.document_type = "BANK_STATEMENT" then
      lookupField doc.extracted_data "account_number" else none)
    (fun d hd => typeGuard_lookup_none d "BANK_STATEMENT" "account_number"
      (h d hd) (by decide))
  have e9 := collectCandidates_nil docs
    (fun doc => if doc.document_type = "BANK_STATEMENT" then
      lookupField doc.extracted_data "ending_balance" else none)
    (fun d hd => typeGuard_lookup_none d "BANK_STATEMENT" "ending_balance"
      (h d hd) (by decide))
  have e10 := collectCandidates_nil docs
    (fun doc => if doc.document_type = "DRIVERS_LICENSE" then
      lookupField doc.extracted_data "license_number" else none)
    (fun d hd => typeGuard_lookup_none d "DRIVERS_LICENSE" "license_number"
      (h d hd) (by decide))
  have e11 := collectCandidates_nil docs
    (fun doc => if doc.document_type = "DRIVERS_LICENSE" then
      lookupField doc.extracted_data "state" else none)
    (fun d hd => typeGuard_lookup_none d "DRIVERS_LICENSE" "state" (h d hd)
      (by decide))
  simp only [generate_golden_record, e1, e2, e3, e4, e5, e6, e7, e8, e9,
    e10, e11]
  rfl

/-- Documents that load with only unrecognized fields pass the loading
filter unchanged. -/
theorem loaded_eq (getDocument : String → Option DocumentMetadata)
    (laid : String) (ids : List String)
    (h : ∀ id ∈ ids, docLoadsUnrecognized getDocument laid id = true) :
    ids.filterMap (loadDocument getDocument laid) =
      ids.filterMap getDocument := by
  induction ids with
  | nil => rfl
  | cons id rest ih =>
      have hid := h id (List.mem_cons_self id rest)
      unfold docLoadsUnrecognized at hid
      cases hg : getDocument id with
      | none =>
          rw [hg] at hid
          simp at hid
      | some m =>
          rw [hg] at hid
          simp only [Bool.and_eq_true, beq_iff_eq, Bool.not_eq_true'] at hid
          obtain ⟨⟨⟨hl, hp⟩, hd⟩, _⟩ := hid
          have hmatch : loadDocument getDocument laid id =
              (if m.loan_application_id ≠ laid then none
               else if m.processing_status ≠ "COMPLETED" then none
               else if m.extracted_data.isEmpty then none
               else some m) := by
            unfold loadDocument
            rw [hg]
          have hload : loadDocument getDocument laid id = some m := by
            rw [hmatch, if_neg (by simp [hl]), if_neg (by simp [hp]),
              if_neg (by simp [hd])]
          rw [List.filterMap_cons, List.filterMap_cons, hload, hg,
            ih (fun x hx => h x (List.mem_cons_of_mem id hx))]

/-- Counterexample to C6: an empty `document_ids` list is treated as a
fault — the handler raises `ValueError` and returns a 400
`ValidationError` response, not an empty inconsistency list and empty
golden record. -/
theorem empty_input_error_counterexample :
    lambda_handler_core (fun _ _ _ => none) (fun _ => none)
      (some "loan-123") [] "2024-01-15T10:00:00Z" =
      ValidatorResponse.error 400 "ValidationError"
        "document_ids list cannot be empty" ∧
    ValidatorResponse.error 400 "ValidationError"
        "document_ids list cannot be empty" ≠
      ValidatorResponse.ok 200 "loan-123" [] []
        { loan_application_id := "loan-123",
          created_timestamp := "2024-01-15T10:00:00Z", fields := [] }
        "VALIDATION_COMPLETE_WITH_GOLDEN_RECORD" := by
  exact ⟨rfl, by simp⟩

/-- C6 as amended: an empty `document_ids` list (or one from which no
document loads) is a fault — the handler returns a 400 `ValidationError`
response; when at least one document loads but no document contributes a
candidate for any recognized field, the handler returns the 200 response
with an empty inconsistency list and a golden record with no fields. -/
theorem empty_input_behavior (oracle : Oracle)
    (getDocument : String → Option DocumentMetadata)
    (laid : String) (document_ids : List String) (now : String)
    (hlaid : laid ≠ "") :
    (document_ids = [] →
      lambda_handler_core oracle getDocument (some laid) document_ids now =
        ValidatorResponse.error 400 "ValidationError"
          "document_ids list cannot be empty") ∧
    (document_ids ≠ [] →
      (∀ id ∈ document_ids,
        docLoadsUnrecognized getDocument laid id = true) →
      lambda_handler_core oracle getDocument (some laid) document_ids now =
        ValidatorResponse.ok 200 laid (document_ids.filterMap getDocument) []
          { loan_application_id := laid, created_timestamp := now,
            fields := [] }
          "VALIDATION_COMPLETE_WITH_GOLDEN_RECORD") := by
  constructor
  · intro hids
    subst hids
    simp only [lambda_handler_core, Option.getD_some]
    rw [if_neg hlaid]
    rfl
  · intro hne h
    have hload := loaded_eq getDocument laid document_ids h
    have hdocs : ∀ doc ∈ document_ids.filterMap getDocument,
        noRecognizedKeys doc = true := by
      intro doc hdoc
      obtain ⟨id, hid, hgd⟩ := List.mem_filterMap.mp hdoc
      have hu := h id hid
      unfold docLoadsUnrecognized at hu
      rw [hgd] at hu
      simp only [Bool.and_eq_true] at hu
      exact hu.2
    have hids : document_ids.isEmpty = false := by
      cases document_ids with
      | nil => exact absurd rfl hne
      | cons a l => rfl
    have hnotempty : (document_ids.filterMap getDocument).isEmpty = false := by
      cases document_ids with
      | nil => exact absurd rfl hne
      | cons id0 rest =>
          have h0 := h id0 (List.mem_cons_self id0 rest)
          unfold docLoadsUnrecognized at h0
          cases hg : getDocument id0 with
          | none =>
              rw [hg] at h0
              simp at h0
          | some m =>
              rw [List.filterMap_cons, hg]
              rfl
    have f1 := collectFields_nil (document_ids.filterMap getDocument)
      appNameField (fun d hd => appNameField_none d (hdocs d hd))
    have f2 := collectFields_nil (document_ids.filterMap getDocument)
      appAddressField (fun d hd => appAddressField_none d (hdocs d hd))
    have f3 := collectFields_nil (document_ids.filterMap getDocument)
      appWageField (fun d hd => appWageField_none d (hdocs d hd))
    have f4 := findSome?_nil (document_ids.filterMap getDocument)
      appAgiCand (fun d hd => appAgiCand_none d (hdocs d hd))
    have f5 := collectFields_nil (document_ids.filterMap getDocument)
      appDobField (fun d hd => appDobField_none d (hdocs d hd))
    have f6 := collectFields_nil (document_ids.filterMap getDocument)
      appSsnField (fun d hd => appSsnField_none d (hdocs d hd))
    have fg := golden_record_empty laid (document_ids.filterMap getDocument)
      now hdocs
    simp only [lambda_handler_core, Option.getD_some]
    rw [if_neg hlaid, if_neg (by simp [hids]), hload,
      if_neg (by simp [hnotempty]), f1, f2, f3, f4, f5, f6, fg]
    simp

/-- Concrete document repository for the C6 witness: one completed W2
document whose only extracted field has an unrecognized key. -/
def demoRepo : String → Option DocumentMetadata := fun id =>
  if id = "doc-1" then
    some { document_id := "doc-1", loan_application_id := "loan-123",
           document_type := "W2", processing_status := "COMPLETED",
           extracted_data := [("custom_note", { value := "x", confidence := 95 })] }
  else none

/-- Witness for C6 (amended) at concrete inputs: a loaded document with
no recognized fields gives the 200 response with no inconsistencies and
an empty golden record, while an empty id list gives the 400 error. -/
theorem empty_input_behavior_witness :
    lambda_handler_core (fun _ _ _ => none) demoRepo (some "loan-123")
        ["doc-1"] "2024-01-15T10:00:00Z" =
      ValidatorResponse.ok 200 "loan-123" (["doc-1"].filterMap demoRepo) []
        { loan_application_id := "loan-123",
          created_timestamp := "2024-01-15T10:00:00Z", fields := [] }
        "VALIDATION_COMPLETE_WITH_GOLDEN_RECORD" ∧
    lambda_handler_core (fun _ _ _ => none) demoRepo (some "loan-123") []
        "2024-01-15T10:00:00Z" =
      ValidatorResponse.error 400 "ValidationError"
        "document_ids list cannot be empty" := by
  constructor
  · exact (empty_input_behavior (fun _ _ _ => none) demoRepo "loan-123"
      ["doc-1"] "2024-01-15T10:00:00Z" (by decide)).2 (by decide) (by decide)
  · exact (empty_input_behavior (fun _ _ _ => none) demoRepo "loan-123"
      [] "2024-01-15T10:00:00Z" (by decide)).1 rfl
